import Mathlib

/-!
Verification development for the niso OAuth2 token-issuance engine
(`access.go`).  The Go source is shallowly embedded: pure functions become
Lean functions, calls into the pluggable collaborators (storage, token
generator, client authentication) become explicit oracle results threaded
through environment records, and `time.Time` becomes an `Int` count of
nanoseconds.  Collaborator-owned types that live outside `access.go`
(`ClientData`, `AuthorizeData`, the PKCE constants and matcher, `firstURI`,
`NewResponse`) are modelled from the specification, each marked as such in
its doc comment.
-/

namespace Niso

/-- Go `error` values produced by collaborators (storage, generators). -/
abbrev GoError := String

/-- Opaque `UserData interface\x7b\x7d` payload, passed through unmodified. -/
abbrev UserData := String

/-- The RFC 6749 error taxonomy used by `NisoError` codes. -/
inductive ErrorCode where
  | E_INVALID_REQUEST
  | E_UNAUTHORIZED_CLIENT
  | E_ACCESS_DENIED
  | E_UNSUPPORTED_RESPONSE_TYPE
  | E_INVALID_SCOPE
  | E_SERVER_ERROR
  | E_TEMPORARILY_UNAVAILABLE
  | E_UNSUPPORTED_GRANT_TYPE
  | E_INVALID_GRANT
  | E_INVALID_CLIENT
deriving DecidableEq, Repr

/-- A typed niso error: taxonomy code, message, optional wrapped cause. -/
structure NisoError where
  code : ErrorCode
  message : String
  wrapped : Option GoError
deriving DecidableEq, Repr

/-- `NewNisoError` constructs an error with no wrapped cause. -/
def NewNisoError (code : ErrorCode) (message : String) : NisoError :=
  { code := code, message := message, wrapped := none }

/-- `NewWrappedNisoError` wraps a collaborator error with a taxonomy code. -/
def NewWrappedNisoError (code : ErrorCode) (err : GoError) (message : String) : NisoError :=
  { code := code, message := message, wrapped := some err }

/-- Go `type GrantType string`. -/
abbrev GrantType := String

def AUTHORIZATION_CODE : GrantType := "authorization_code"

def REFRESH_TOKEN : GrantType := "refresh_token"

def PASSWORD : GrantType := "password"

def CLIENT_CREDENTIALS : GrantType := "client_credentials"

def IMPLICIT : GrantType := "__implicit"

/-- An instant, as in Go `time.Time`: nanoseconds on an integer line. -/
abbrev Time := Int

/-- Go `time.Second`: 1e9 nanoseconds. -/
def timeSecond : Int := 1000000000

/-- The relevant slice of Go `*http.Request`: method and parsed form. -/
structure Request where
  method : String
  form : List (String × String)
deriving DecidableEq, Repr

/-- `r.FormValue(key)`: first value for the key, "" when absent. -/
def formValue (r : Request) (key : String) : String :=
  match r.form.find? (fun p => p.1 = key) with
  | some p => p.2
  | none => ""

/-- Modelled from the spec: `ClientData` is collaborator-owned — client
identifier, allowed redirect URIs, secret. -/
structure ClientData where
  clientID : String
  redirectURI : String
  clientSecret : String
deriving DecidableEq, Repr

/-- Modelled from the spec: `AuthorizeData` is collaborator-owned — issued
authorization code, bound client, redirect URI, scope, creation time,
expiry, optional PKCE challenge + method, untyped user-data payload. -/
structure AuthorizeData where
  clientData : ClientData
  code : String
  expiresIn : Int
  scope : String
  redirectURI : String
  createdAt : Time
  userData : UserData
  codeChallenge : String
  codeChallengeMethod : String
deriving DecidableEq, Repr

/-- Modelled from the spec: an `AuthorizeData` expiry test shaped like
`AccessData.IsExpiredAt` (the method lives outside `access.go`):
expiration instant strictly before `t`. -/
def AuthorizeData.ExpireAt (d : AuthorizeData) : Time :=
  d.createdAt + d.expiresIn * timeSecond

/-- Modelled from the spec: see `AuthorizeData.ExpireAt`. -/
def AuthorizeData.IsExpiredAt (d : AuthorizeData) (t : Time) : Bool :=
  decide (d.ExpireAt < t)

/-- `RefreshTokenData`: an issued refresh token record. -/
structure RefreshTokenData where
  clientID : String
  refreshToken : String
  createdAt : Time
  redirectURI : String
  scope : String
  userData : UserData
deriving DecidableEq, Repr

/-- `AccessData`: the minted access-token record. -/
structure AccessData where
  clientData : Option ClientData
  accessToken : String
  expiresIn : Int
  scope : String
  redirectURI : String
  createdAt : Time
  userData : UserData
deriving DecidableEq, Repr

/-- `ExpireAt`: `d.CreatedAt.Add(time.Duration(d.ExpiresIn) * time.Second)`. -/
def AccessData.ExpireAt (d : AccessData) : Time :=
  d.createdAt + d.expiresIn * timeSecond

/-- `IsExpiredAt`: `d.ExpireAt().Before(t)` — `Before` is a strict order. -/
def AccessData.IsExpiredAt (d : AccessData) (t : Time) : Bool :=
  decide (d.ExpireAt < t)

/-- `AccessRequest`: the transient, request-scoped validated request. -/
structure AccessRequest where
  grantType : GrantType
  code : String := ""
  clientData : Option ClientData := none
  authorizeData : Option AuthorizeData := none
  previousRefreshToken : Option RefreshTokenData := none
  redirectURI : String := ""
  scope : String := ""
  username : String := ""
  password : String := ""
  assertionType : String := ""
  assertion : String := ""
  expiration : Int := 0
  generateRefresh : Bool := false
  userData : UserData := ""
  httpRequest : Request
  codeVerifier : String := ""
deriving DecidableEq, Repr

/-! ### PKCE: the verifier pattern and the S256 transform

The matcher regex and the method constants live outside `access.go`;
SHA-256 and base64url come from the Go standard library.  All are modelled
from the spec, executable so the RFC 7636 test vector can be evaluated. -/

/-- Modelled from the spec: one character of the RFC 7636 verifier class
`[A-Za-z0-9\-._~]`. -/
def pkceChar (c : Char) : Bool :=
  c.isAlpha || c.isDigit || c = '-' || c = '.' || c = '_' || c = '~'

/-- Modelled from the spec: `pkceMatcher.MatchString`, the anchored RFC 7636
verifier pattern `[A-Za-z0-9\-._~]\x7b43,128\x7d`. -/
def pkceMatches (s : String) : Bool :=
  43 ≤ s.length && s.length ≤ 128 && s.toList.all pkceChar

/-- Modelled from the spec: the `plain` code-challenge method constant. -/
def PKCE_PLAIN : String := "plain"

/-- Modelled from the spec: the `S256` code-challenge method constant. -/
def PKCE_S256 : String := "S256"

/-- UTF-8 bytes of one character, as Go `[]byte(string)` produces them. -/
def charUtf8 (c : Char) : List Nat :=
  let n := c.toNat
  if n < 128 then [n]
  else if n < 2048 then
    [192 ||| (n >>> 6), 128 ||| (n &&& 63)]
  else if n < 65536 then
    [224 ||| (n >>> 12), 128 ||| ((n >>> 6) &&& 63), 128 ||| (n &&& 63)]
  else
    [240 ||| (n >>> 18), 128 ||| ((n >>> 12) &&& 63),
     128 ||| ((n >>> 6) &&& 63), 128 ||| (n &&& 63)]

/-- UTF-8 bytes of a string. -/
def strBytes (s : String) : List Nat :=
  s.toList.flatMap charUtf8

/-- Truncation to a 32-bit word. -/
def w32 (n : Nat) : Nat := n % 4294967296

/-- 32-bit rotate right. -/
def rotr (x n : Nat) : Nat := w32 ((x >>> n) ||| (x <<< (32 - n)))

/-- Modelled from the spec: SHA-256 (Go `crypto/sha256`), FIPS 180-4.
Round constants. -/
def shaK : List Nat :=
  [1116352408, 1899447441, 3049323471, 3921009573,
   961987163, 1508970993, 2453635748, 2870763221,
   3624381080, 310598401, 607225278, 1426881987,
   1925078388, 2162078206, 2614888103, 3248222580,
   3835390401, 4022224774, 264347078, 604807628,
   770255983, 1249150122, 1555081692, 1996064986,
   2554220882, 2821834349, 2952996808, 3210313671,
   3336571891, 3584528711, 113926993, 338241895,
   666307205, 773529912, 1294757372, 1396182291,
   1695183700, 1986661051, 2177026350, 2456956037,
   2730485921, 2820302411, 3259730800, 3345764771,
   3516065817, 3600352804, 4094571909, 275423344,
   430227734, 506948616, 659060556, 883997877,
   958139571, 1322822218, 1537002063, 1747873779,
   1955562222, 2024104815, 2227730452, 2361852424,
   2428436474, 2756734187, 3204031479, 3329325298]

/-- SHA-256 initial hash state. -/
def shaH0 : List Nat :=
  [1779033703, 3144134277, 1013904242, 2773480762,
   1359893119, 2600822924, 528734635, 1541459225]

/-- Big-endian 8-byte encoding. -/
def be64 (n : Nat) : List Nat :=
  [(n >>> 56) &&& 255, (n >>> 48) &&& 255, (n >>> 40) &&& 255, (n >>> 32) &&& 255,
   (n >>> 24) &&& 255, (n >>> 16) &&& 255, (n >>> 8) &&& 255, n &&& 255]

/-- Big-endian 4-byte encoding. -/
def be32 (n : Nat) : List Nat :=
  [(n >>> 24) &&& 255, (n >>> 16) &&& 255, (n >>> 8) &&& 255, n &&& 255]

/-- SHA-256 padding: 0x80, zeros to 56 mod 64, 8-byte big-endian bit length. -/
def sha256pad (msg : List Nat) : List Nat :=
  let len := msg.length
  let zeros := (120 - ((len + 1) % 64)) % 64
  msg ++ 128 :: List.replicate zeros 0 ++ be64 (8 * len)

/-- Big-endian 32-bit words of a byte list. -/
def toWords : List Nat → List Nat
  | b0 :: b1 :: b2 :: b3 :: rest =>
      ((((b0 <<< 8) ||| b1) <<< 8 ||| b2) <<< 8 ||| b3) :: toWords rest
  | _ => []

def shaCh (e f g : Nat) : Nat := (e &&& f) ^^^ ((e ^^^ 4294967295) &&& g)

def shaMaj (a b c : Nat) : Nat := (a &&& b) ^^^ (a &&& c) ^^^ (b &&& c)

def bigSigma0 (x : Nat) : Nat := (rotr x 2) ^^^ (rotr x 13) ^^^ (rotr x 22)

def bigSigma1 (x : Nat) : Nat := (rotr x 6) ^^^ (rotr x 11) ^^^ (rotr x 25)

def smallSigma0 (x : Nat) : Nat := (rotr x 7) ^^^ (rotr x 18) ^^^ (x >>> 3)

def smallSigma1 (x : Nat) : Nat := (rotr x 17) ^^^ (rotr x 19) ^^^ (x >>> 10)

/-- Extend the 16 message-schedule words by `n` more. -/
def extendW : Nat → Array Nat → Array Nat
  | 0, w => w
  | n + 1, w =>
      let t := w.size
      extendW n (w.push (w32 (smallSigma1 (w.getD (t - 2) 0) + w.getD (t - 7) 0 +
        smallSigma0 (w.getD (t - 15) 0) + w.getD (t - 16) 0)))

/-- One SHA-256 round on the eight-word working state. -/
def shaRound (st : List Nat) (k w : Nat) : List Nat :=
  match st with
  | [a, b, c, d, e, f, g, h] =>
      let t1 := w32 (h + bigSigma1 e + shaCh e f g + k + w)
      let t2 := w32 (bigSigma0 a + shaMaj a b c)
      [w32 (t1 + t2), a, b, c, w32 (d + t1), e, f, g]
  | other => other

/-- Compress one 64-byte block into the hash state. -/
def shaCompress (hs : List Nat) (block : List Nat) : List Nat :=
  let ws := extendW 48 (toWords block).toArray
  let st := (shaK.zip ws.toList).foldl (fun st p => shaRound st p.1 p.2) hs
  (hs.zip st).map (fun p => w32 (p.1 + p.2))

/-- Fold the blocks of a padded message into the hash state. -/
def shaBlocks : Nat → List Nat → List Nat → List Nat
  | 0, hs, _ => hs
  | n + 1, hs, msg => shaBlocks n (shaCompress hs (msg.take 64)) (msg.drop 64)

/-- SHA-256 digest (32 bytes) of a byte list. -/
def sha256 (msg : List Nat) : List Nat :=
  let padded := sha256pad msg
  (shaBlocks (padded.length / 64) shaH0 padded).flatMap be32

/-- The base64url alphabet (RFC 4648 §5). -/
def b64urlAlphabet : List Char :=
  "ABCDEFGHIJKLMNOPQRSTUVWXYZabcdefghijklmnopqrstuvwxyz0123456789-_".toList

def b64Char (n : Nat) : Char := b64urlAlphabet.getD n 'A'

/-- Modelled from the spec: Go `base64.RawURLEncoding.EncodeToString`
(unpadded base64url). -/
def base64RawURL : List Nat → List Char
  | [] => []
  | [b1] => [b64Char (b1 >>> 2), b64Char ((b1 % 4) <<< 4)]
  | [b1, b2] =>
      [b64Char (b1 >>> 2), b64Char (((b1 % 4) <<< 4) ||| (b2 >>> 4)),
       b64Char ((b2 % 16) <<< 2)]
  | b1 :: b2 :: b3 :: rest =>
      b64Char (b1 >>> 2) :: b64Char (((b1 % 4) <<< 4) ||| (b2 >>> 4)) ::
      b64Char (((b2 % 16) <<< 2) ||| (b3 >>> 6)) :: b64Char (b3 % 64) ::
      base64RawURL rest

/-- The S256 verifier transform: unpadded base64url of SHA-256 of the
verifier bytes. -/
def pkceS256Transform (v : String) : String :=
  String.mk (base64RawURL (sha256 (strBytes v)))

/-! ### Server, collaborator oracles, and the response shape -/

/-- The configuration options `access.go` reads. -/
structure ServerConfig where
  allowedAccessTypes : List GrantType
  allowGetAccessRequest : Bool
  allowClientSecretInParams : Bool
  accessExpiration : Int
  tokenType : String
  redirectURISeparator : String
deriving DecidableEq, Repr

/-- The server: immutable configuration plus the clock reading `s.Now()`. -/
structure Server where
  config : ServerConfig
  now : Time
deriving DecidableEq, Repr

/-- Modelled from the spec: the client credentials extracted from HTTP Basic
Auth or request parameters by the trusted helper. -/
structure ClientAuth where
  username : String
  password : String
deriving DecidableEq, Repr

/-- Outcomes of the collaborator calls a grant handler can make, one oracle
per call site: `getClientAuthFromRequest`, `getClientDataFromBasicAuth`,
`Storage.GetAuthorizeData`, `Storage.GetRefreshTokenData`. -/
structure Env where
  clientAuth : Except NisoError ClientAuth
  clientData : Except NisoError ClientData
  getAuthorizeData : Except GoError AuthorizeData
  getRefreshTokenData : Except GoError RefreshTokenData
deriving Repr

/-- One value of the response `Data` map. -/
inductive ResponseData where
  | str (s : String)
  | int (n : Int)
deriving DecidableEq, Repr

/-- Go map assignment on the association list backing `resp.Data`. -/
def setKey (l : List (String × ResponseData)) (k : String) (v : ResponseData) :
    List (String × ResponseData) :=
  if l.any (fun p => p.1 = k) then
    l.map (fun p => if p.1 = k then (k, v) else p)
  else l ++ [(k, v)]

/-- The response object assembled for the caller. -/
structure Response where
  data : List (String × ResponseData)
deriving DecidableEq, Repr

/-- Modelled from the spec: `NewResponse` starts from an empty data map. -/
def NewResponse : Response := { data := [] }

def Response.set (r : Response) (k : String) (v : ResponseData) : Response :=
  { data := setKey r.data k v }

/-- Modelled from the spec: `firstURI` — the first URI in the client
configured redirect-URI list under the configurable delimiter. -/
def firstURI (base sep : String) : String :=
  if sep = "" then base else (base.splitOn sep).headD ""

/-! ### Grant handlers -/

/-- `handleAuthorizationCodeRequest` (`access.go`): the authorization-code
grant, including the PKCE verification block. -/
def handleAuthorizationCodeRequest (s : Server) (r : Request) (env : Env) :
    Except NisoError AccessRequest :=
  match env.clientAuth with
  | Except.error err =>
      Except.error (NewWrappedNisoError ErrorCode.E_INVALID_REQUEST err.message
        "failed to get client authentication")
  | Except.ok _auth =>
    let ret : AccessRequest :=
      { grantType := AUTHORIZATION_CODE,
        code := formValue r "code",
        codeVerifier := formValue r "code_verifier",
        generateRefresh := true,
        expiration := s.config.accessExpiration,
        httpRequest := r }
    if ret.code = "" then
      Except.error (NewNisoError ErrorCode.E_INVALID_GRANT "no authorization code provided")
    else
      match env.clientData with
      | Except.error e => Except.error e
      | Except.ok clientData =>
        match env.getAuthorizeData with
        | Except.error err =>
            Except.error (NewWrappedNisoError ErrorCode.E_INVALID_GRANT err
              "could not load data for authorization code")
        | Except.ok authorizeData =>
          let ret := { ret with clientData := some clientData,
                                authorizeData := some authorizeData }
          if authorizeData.clientData.clientID ≠ clientData.clientID then
            Except.error (NewNisoError ErrorCode.E_INVALID_GRANT
              "invalid client id for authorization code")
          else if authorizeData.IsExpiredAt s.now then
            Except.error (NewNisoError ErrorCode.E_INVALID_GRANT "authorization code expired")
          else if authorizeData.codeChallenge.length > 0 then
            if !(pkceMatches ret.codeVerifier) then
              Except.error (NewNisoError ErrorCode.E_INVALID_REQUEST
                "code_verifier invalid (rfc7636)")
            else
              let codeVerifier :=
                if authorizeData.codeChallengeMethod = "" ∨
                   authorizeData.codeChallengeMethod = PKCE_PLAIN then
                  some ret.codeVerifier
                else if authorizeData.codeChallengeMethod = PKCE_S256 then
                  some (pkceS256Transform ret.codeVerifier)
                else none
              match codeVerifier with
              | none =>
                  Except.error (NewNisoError ErrorCode.E_INVALID_REQUEST
                    "code_challenge_method transform algorithm not supported (rfc7636)")
              | some codeVerifier =>
                if codeVerifier ≠ authorizeData.codeChallenge then
                  Except.error (NewNisoError ErrorCode.E_INVALID_GRANT
                    "code_verifier failed comparison with code_challenge")
                else
                  Except.ok { ret with scope := authorizeData.scope,
                                       userData := authorizeData.userData }
          else
            Except.ok { ret with scope := authorizeData.scope,
                                 userData := authorizeData.userData }

/-- Splitting a character list at every comma, keeping empty pieces. -/
def splitCharsComma : List Char → List (List Char)
  | [] => [[]]
  | c :: cs =>
    if c = ',' then [] :: splitCharsComma cs
    else
      match splitCharsComma cs with
      | [] => [[c]]
      | g :: gs => (c :: g) :: gs

/-- Go `strings.Split(s, ",")`, the one separator `access.go` uses;
structurally recursive so that concrete results evaluate in the kernel. -/
def splitComma (s : String) : List String :=
  (splitCharsComma s.toList).map String.mk

/-- `extraScopes` (`access.go`): true when the comma-delimited
`refreshScopes` contains a non-empty token absent from `accessScopes`. -/
def extraScopes (accessScopes refreshScopes : String) : Bool :=
  let accessScopesLists := splitComma accessScopes
  let refreshScopesLists := splitComma refreshScopes
  let accessMaps := accessScopesLists.filter (fun scope => scope ≠ "")
  refreshScopesLists.any (fun scope => scope ≠ "" && !(accessMaps.contains scope))

/-- `handleRefreshTokenRequest` (`access.go`): the refresh-token grant. -/
def handleRefreshTokenRequest (s : Server) (r : Request) (env : Env) :
    Except NisoError AccessRequest :=
  match env.clientAuth with
  | Except.error err => Except.error err
  | Except.ok _auth =>
    let req : AccessRequest :=
      { grantType := REFRESH_TOKEN,
        code := formValue r "refresh_token",
        scope := formValue r "scope",
        generateRefresh := true,
        expiration := s.config.accessExpiration,
        httpRequest := r }
    if req.code = "" then
      Except.error (NewNisoError ErrorCode.E_INVALID_GRANT "no refresh token provided")
    else
      match env.clientData with
      | Except.error e => Except.error e
      | Except.ok clientData =>
        match env.getRefreshTokenData with
        | Except.error err =>
            Except.error (NewWrappedNisoError ErrorCode.E_INVALID_GRANT err
              "failed to get refresh token data from storage")
        | Except.ok previousRefreshToken =>
          if previousRefreshToken.clientID ≠ clientData.clientID then
            Except.error (NewNisoError ErrorCode.E_INVALID_CLIENT
              "request client id must be the same from previous token")
          else
            let req := { req with clientData := some clientData,
                                  previousRefreshToken := some previousRefreshToken,
                                  redirectURI := previousRefreshToken.redirectURI,
                                  userData := previousRefreshToken.userData }
            let req :=
              if req.scope = "" then { req with scope := previousRefreshToken.scope } else req
            if extraScopes previousRefreshToken.scope req.scope then
              Except.error (NewNisoError ErrorCode.E_ACCESS_DENIED
                "the requested scope must not include any scope not originally granted by the resource owner")
            else
              Except.ok req

/-- `handlePasswordRequest` (`access.go`): the resource-owner password
grant. -/
def handlePasswordRequest (s : Server) (r : Request) (env : Env) :
    Except NisoError AccessRequest :=
  match env.clientAuth with
  | Except.error err => Except.error err
  | Except.ok _auth =>
    let ret : AccessRequest :=
      { grantType := PASSWORD,
        username := formValue r "username",
        password := formValue r "password",
        scope := formValue r "scope",
        generateRefresh := true,
        expiration := s.config.accessExpiration,
        httpRequest := r }
    if ret.username = "" then
      Except.error (NewNisoError ErrorCode.E_INVALID_GRANT "username field not set")
    else if ret.password = "" then
      Except.error (NewNisoError ErrorCode.E_INVALID_GRANT "password field not set")
    else
      match env.clientData with
      | Except.error e => Except.error e
      | Except.ok clientData =>
        Except.ok
          { ret with
            clientData := some clientData,
            redirectURI := firstURI clientData.redirectURI s.config.redirectURISeparator }

/-- `handleClientCredentialsRequest` (`access.go`): the client-credentials
grant; `GenerateRefresh` is hard-coded `false`. -/
def handleClientCredentialsRequest (s : Server) (r : Request) (env : Env) :
    Except NisoError AccessRequest :=
  match env.clientAuth with
  | Except.error err => Except.error err
  | Except.ok _auth =>
    let ret : AccessRequest :=
      { grantType := CLIENT_CREDENTIALS,
        scope := formValue r "scope",
        generateRefresh := false,
        expiration := s.config.accessExpiration,
        httpRequest := r }
    match env.clientData with
    | Except.error e => Except.error e
    | Except.ok clientData =>
      Except.ok
        { ret with
          clientData := some clientData,
          redirectURI := firstURI clientData.redirectURI s.config.redirectURISeparator }

/-- `GenerateAccessRequest` (`access.go`): HTTP-method check, then
grant-type dispatch against the configured allow-list. -/
def GenerateAccessRequest (s : Server) (r : Request) (env : Env) :
    Except NisoError AccessRequest :=
  if r.method = "GET" ∧ !s.config.allowGetAccessRequest then
    Except.error (NewNisoError ErrorCode.E_INVALID_REQUEST
      "GET method not allowed for access requests")
  else if r.method ≠ "POST" then
    Except.error (NewNisoError ErrorCode.E_INVALID_REQUEST "access requests must POST verb")
  else
    let grantType : GrantType := formValue r "grant_type"
    if s.config.allowedAccessTypes.contains grantType then
      if grantType = AUTHORIZATION_CODE then handleAuthorizationCodeRequest s r env
      else if grantType = REFRESH_TOKEN then handleRefreshTokenRequest s r env
      else if grantType = PASSWORD then handlePasswordRequest s r env
      else if grantType = CLIENT_CREDENTIALS then handleClientCredentialsRequest s r env
      else Except.error (NewNisoError ErrorCode.E_UNSUPPORTED_GRANT_TYPE "unsupported grant type")
    else
      Except.error (NewNisoError ErrorCode.E_UNSUPPORTED_GRANT_TYPE "unsupported grant type")

/-! ### Token minting and finalization -/

/-- A storage call issued by `FinishAccessRequest`, recorded in order. -/
inductive StorageEvent where
  | saveRefreshTokenData (rt : RefreshTokenData)
  | saveAccessData (d : AccessData)
  | deleteAuthorizeData (code : String)
  | deleteRefreshTokenData (token : String)
deriving DecidableEq, Repr

/-- Outcomes of the collaborator calls `FinishAccessRequest` can make. -/
structure FinishEnv where
  generateAccessToken : Except GoError String
  generateRefreshToken : Except GoError String
  saveRefreshTokenData : Except GoError Unit
  saveAccessData : Except GoError Unit
  deleteAuthorizeData : Except GoError Unit
  deleteRefreshTokenData : Except GoError Unit
deriving Repr

/-- `FinishAccessRequest` (`access.go`): mint the access (and optionally
refresh) token, persist, best-effort delete consumed artifacts, assemble
the response.  Returns the result together with the ordered trace of
storage calls issued. -/
def FinishAccessRequest (s : Server) (ar : AccessRequest) (fenv : FinishEnv) :
    Except NisoError Response × List StorageEvent :=
  let resp := NewResponse
  let redirectURI := ar.redirectURI
  let redirectURI := if ar.redirectURI ≠ "" then ar.redirectURI else redirectURI
  let ret : AccessData :=
    { clientData := ar.clientData,
      accessToken := "",
      redirectURI := redirectURI,
      createdAt := s.now,
      expiresIn := ar.expiration,
      userData := ar.userData,
      scope := ar.scope }
  match fenv.generateAccessToken with
  | Except.error e =>
      (Except.error (NewWrappedNisoError ErrorCode.E_SERVER_ERROR e
        "failed to generate access token"), [])
  | Except.ok accessToken =>
    let ret := { ret with accessToken := accessToken }
    let refreshStep : Except NisoError Response × List StorageEvent :=
      if ar.generateRefresh then
        let rt : RefreshTokenData :=
          { clientID := (ar.clientData.map ClientData.clientID).getD "",
            refreshToken := "",
            createdAt := s.now,
            redirectURI := "",
            userData := ar.userData,
            scope := ar.scope }
        match fenv.generateRefreshToken with
        | Except.error e =>
            (Except.error (NewWrappedNisoError ErrorCode.E_SERVER_ERROR e
              "failed to generate refresh token"), [])
        | Except.ok refreshToken =>
          let rt := { rt with refreshToken := refreshToken }
          match fenv.saveRefreshTokenData with
          | Except.error e =>
              (Except.error (NewWrappedNisoError ErrorCode.E_SERVER_ERROR e
                "could not save new refresh token data"),
               [StorageEvent.saveRefreshTokenData rt])
          | Except.ok _ =>
              (Except.ok (resp.set "refresh_token" (ResponseData.str rt.refreshToken)),
               [StorageEvent.saveRefreshTokenData rt])
      else (Except.ok resp, [])
    match refreshStep with
    | (Except.error e, tr) => (Except.error e, tr)
    | (Except.ok resp, tr) =>
      let tr := tr ++ [StorageEvent.saveAccessData ret]
      match fenv.saveAccessData with
      | Except.error e =>
          (Except.error (NewWrappedNisoError ErrorCode.E_SERVER_ERROR e
            "failed to save access data"), tr)
      | Except.ok _ =>
        let tr :=
          match ar.authorizeData with
          | some ad => tr ++ [StorageEvent.deleteAuthorizeData ad.code]
          | none => tr
        let tr :=
          match ar.previousRefreshToken with
          | some prt => tr ++ [StorageEvent.deleteRefreshTokenData prt.refreshToken]
          | none => tr
        let resp := resp.set "access_token" (ResponseData.str ret.accessToken)
        let resp := resp.set "token_type" (ResponseData.str s.config.tokenType)
        let resp := resp.set "expires_in" (ResponseData.int ret.expiresIn)
        let resp :=
          if ar.scope ≠ "" then resp.set "scope" (ResponseData.str ar.scope) else resp
        (Except.ok resp, tr)

/-- `HandleAccessRequest` (`access.go`): generate the request, consult the
authorization callback, and finish.  The callback result mirrors the Go
pair of bool and error. -/
def HandleAccessRequest (s : Server) (r : Request) (env : Env) (fenv : FinishEnv)
    (isAuthorizedCb : AccessRequest → Bool × Option GoError) :
    Except NisoError Response × List StorageEvent :=
  match GenerateAccessRequest s r env with
  | Except.error e => (Except.error e, [])
  | Except.ok ar =>
    match isAuthorizedCb ar with
    | (_, some err) =>
        (Except.error (NewWrappedNisoError ErrorCode.E_SERVER_ERROR err
          "authorization check failed"), [])
    | (isAuthorized, none) =>
      if !isAuthorized then
        (Except.error (NewNisoError ErrorCode.E_ACCESS_DENIED "access denied"), [])
      else
        FinishAccessRequest s ar fenv

/-! ### Helper lemmas -/

def scopeTokens (s : String) : List String := (splitComma s).filter (fun t => t ≠ "")

theorem extraScopes_iff (a b : String) :
    extraScopes a b = true ↔ ∃ t ∈ scopeTokens b, t ∉ scopeTokens a := by
  simp [extraScopes, scopeTokens, List.any_eq_true, List.mem_filter]
  constructor
  · rintro ⟨t, ht, hne, hor⟩
    refine ⟨t, ⟨ht, hne⟩, fun hin => ?_⟩
    rcases hor with h1 | h2
    · exact absurd hin h1
    · exact h2
  · rintro ⟨t, ⟨ht, hne⟩, himp⟩
    refine ⟨t, ht, hne, ?_⟩
    by_cases hin : t ∈ splitComma a
    · exact Or.inr (himp hin)
    · exact Or.inl hin

theorem extraScopes_self (a : String) : extraScopes a a = false := by
  rw [Bool.eq_false_iff]
  intro h
  rcases (extraScopes_iff a a).mp h with ⟨t, ht, hnt⟩
  exact hnt ht

theorem extraScopes_of_subset (a b : String)
    (h : ∀ t ∈ scopeTokens b, t ∈ scopeTokens a) : extraScopes a b = false := by
  rw [Bool.eq_false_iff]
  intro hx
  rcases (extraScopes_iff a b).mp hx with ⟨t, ht, hnt⟩
  exact hnt (h t ht)


/-! ### Claims -/

/-- C2: for a refresh-token grant request that passes client
authentication, token lookup, and client binding: an empty requested scope
inherits the previous scope verbatim; otherwise the request fails with
ACCESS_DENIED exactly when some non-empty comma-delimited token of the
requested scope is absent from the previous scope, and any subset request
is accepted. -/
theorem refresh_scope_containment
    (s : Server) (r : Request) (env : Env) (a : ClientAuth) (cd : ClientData)
    (prev : RefreshTokenData)
    (hca : env.clientAuth = Except.ok a)
    (htok : formValue r "refresh_token" ≠ "")
    (hcd : env.clientData = Except.ok cd)
    (hprev : env.getRefreshTokenData = Except.ok prev)
    (hbind : prev.clientID = cd.clientID) :
    (formValue r "scope" = "" →
      ∃ ar, handleRefreshTokenRequest s r env = Except.ok ar ∧ ar.scope = prev.scope)
    ∧ (formValue r "scope" ≠ "" →
      ((∃ e, handleRefreshTokenRequest s r env = Except.error e ∧
          e.code = ErrorCode.E_ACCESS_DENIED)
        ↔ ∃ t ∈ scopeTokens (formValue r "scope"), t ∉ scopeTokens prev.scope)
      ∧ ((∀ t ∈ scopeTokens (formValue r "scope"), t ∈ scopeTokens prev.scope) →
        ∃ ar, handleRefreshTokenRequest s r env = Except.ok ar ∧
          ar.scope = formValue r "scope")) := by
  refine ⟨?_, ?_⟩
  · intro hs
    simp only [handleRefreshTokenRequest, hca, hcd, hprev, hbind, hs]
    simp [htok, hs, extraScopes_self]
  · intro hs
    constructor
    · rw [← extraScopes_iff prev.scope (formValue r "scope")]
      simp only [handleRefreshTokenRequest, hca, hcd, hprev, hbind]
      simp only [htok, hs]
      by_cases hx : extraScopes prev.scope (formValue r "scope") = true
      · simp [hx, NewNisoError]
      · have hx2 : extraScopes prev.scope (formValue r "scope") = false := by
          simpa using hx
        simp [hx2]
    · intro hsub
      have hx := extraScopes_of_subset _ _ hsub
      simp only [handleRefreshTokenRequest, hca, hcd, hprev, hbind]
      simp [htok, hs, hx]


/-- A registered client fixture used by the concrete witnesses. -/
def cdFix : ClientData :=
  { clientID := "client-1", redirectURI := "https://client.example/cb",
    clientSecret := "secret" }

/-- A configuration fixture with every grant type allowed. -/
def cfgFix : ServerConfig :=
  { allowedAccessTypes := [AUTHORIZATION_CODE, REFRESH_TOKEN, PASSWORD, CLIENT_CREDENTIALS],
    allowGetAccessRequest := false, allowClientSecretInParams := false,
    accessExpiration := 3600, tokenType := "Bearer", redirectURISeparator := "" }

/-- A server fixture whose clock reads 1000 s. -/
def srvFix : Server := { config := cfgFix, now := 1000 * timeSecond }

/-- A client-authentication fixture. -/
def authFix : ClientAuth := { username := "client-1", password := "secret" }

/-- A previously issued refresh token over scope "a,b,c". -/
def prevFix : RefreshTokenData :=
  { clientID := "client-1", refreshToken := "old-refresh-token", createdAt := 0,
    redirectURI := "https://client.example/cb", scope := "a,b,c", userData := "ud" }

/-- Oracle fixture for the refresh-token witness. -/
def envRefreshFix : Env :=
  { clientAuth := Except.ok authFix, clientData := Except.ok cdFix,
    getAuthorizeData := Except.error "no such code",
    getRefreshTokenData := Except.ok prevFix }

/-- A refresh-token request narrowing the scope to "a,b". -/
def rRefreshFix : Request :=
  { method := "POST",
    form := [("grant_type", "refresh_token"), ("refresh_token", "old-refresh-token"),
             ("scope", "a,b")] }

/-- Witness for the refresh-scope claim at the spec vector: previous scope
"a,b,c", requested "a,b" is accepted with the requested scope. -/
theorem refresh_scope_containment_witness :
    formValue rRefreshFix "scope" ≠ "" ∧
    (∃ ar, handleRefreshTokenRequest srvFix rRefreshFix envRefreshFix = Except.ok ar ∧
      ar.scope = formValue rRefreshFix "scope") :=
  ⟨by decide,
    ((refresh_scope_containment srvFix rRefreshFix envRefreshFix authFix cdFix prevFix
      rfl (by decide) rfl rfl rfl).2 (by decide)).2 (by decide)⟩

/-- C5 counterexample: at the exact expiration instant (CreatedAt = 0,
ExpiresIn = 10, t = 10 s) the claimed test "CreatedAt + ExpiresIn ≤ t"
holds, yet the code reports the record not expired. -/
theorem expiry_boundary_counterexample :
    AccessData.IsExpiredAt
      { clientData := none, accessToken := "tok", expiresIn := 10, scope := "",
        redirectURI := "", createdAt := 0, userData := "" } (10 * timeSecond) = false
    ∧ (0 : Int) + 10 * timeSecond ≤ 10 * timeSecond := by
  exact ⟨by decide, by decide⟩

/-- C5 amended: the expiry test is strict — a record is reported expired
exactly when CreatedAt + ExpiresIn seconds is strictly before t. -/
theorem access_expiry_strict (d : AccessData) (t : Time) :
    d.IsExpiredAt t = true ↔ d.createdAt + d.expiresIn * timeSecond < t := by
  simp [AccessData.IsExpiredAt, AccessData.ExpireAt]

/-- C3: a GET request with AllowGetAccessRequest = true is still rejected
with INVALID_REQUEST by the second method check. -/
theorem get_allowed_still_rejected :
    GenerateAccessRequest
      { config := { cfgFix with allowGetAccessRequest := true }, now := 0 }
      { method := "GET", form := [("grant_type", CLIENT_CREDENTIALS)] }
      envRefreshFix
    = Except.error (NewNisoError ErrorCode.E_INVALID_REQUEST
        "access requests must POST verb") := rfl


/-- C4: with GenerateRefresh set, a failure of refresh-token generation or
of refresh-token persistence makes the whole request fail with
SERVER_ERROR; no response (hence no access_token) is produced. -/
theorem refresh_persistence_failure_fatal
    (s : Server) (ar : AccessRequest) (fenv : FinishEnv)
    (hgen : ar.generateRefresh = true)
    (hfail : (∃ e, fenv.generateRefreshToken = Except.error e) ∨
      ∃ e, fenv.saveRefreshTokenData = Except.error e) :
    ∃ e, (FinishAccessRequest s ar fenv).1 = Except.error e ∧
      e.code = ErrorCode.E_SERVER_ERROR := by
  cases hga : fenv.generateAccessToken with
  | error e =>
    exact ⟨NewWrappedNisoError ErrorCode.E_SERVER_ERROR e "failed to generate access token",
      by simp [FinishAccessRequest, hga], rfl⟩
  | ok tok =>
    cases hgr : fenv.generateRefreshToken with
    | error e2 =>
      exact ⟨NewWrappedNisoError ErrorCode.E_SERVER_ERROR e2 "failed to generate refresh token",
        by simp [FinishAccessRequest, hga, hgen, hgr], rfl⟩
    | ok t =>
      rcases hfail with ⟨e, he⟩ | ⟨e, he⟩
      · rw [he] at hgr
        exact absurd hgr (by simp)
      · exact ⟨NewWrappedNisoError ErrorCode.E_SERVER_ERROR e "could not save new refresh token data",
          by simp [FinishAccessRequest, hga, hgen, hgr, he], rfl⟩


/-- A fully successful finalization-oracle fixture. -/
def fenvOkFix : FinishEnv :=
  { generateAccessToken := Except.ok "new-access-token",
    generateRefreshToken := Except.ok "new-refresh-token",
    saveRefreshTokenData := Except.ok (),
    saveAccessData := Except.ok (),
    deleteAuthorizeData := Except.ok (),
    deleteRefreshTokenData := Except.ok () }

/-- A validated refresh-grant request fixture with GenerateRefresh set. -/
def arRefreshFix : AccessRequest :=
  { grantType := REFRESH_TOKEN, code := "old-refresh-token", clientData := some cdFix,
    previousRefreshToken := some prevFix, redirectURI := "https://client.example/cb",
    scope := "a,b", generateRefresh := true, expiration := 3600, userData := "ud",
    httpRequest := rRefreshFix }

/-- Witness: refresh persistence fails on a concrete request, the result is
a SERVER_ERROR failure with no response. -/
theorem refresh_persistence_failure_fatal_witness :
    arRefreshFix.generateRefresh = true ∧
    ∃ e, (FinishAccessRequest srvFix arRefreshFix
        { fenvOkFix with saveRefreshTokenData := Except.error "disk full" }).1 =
      Except.error e ∧ e.code = ErrorCode.E_SERVER_ERROR :=
  ⟨rfl, refresh_persistence_failure_fatal srvFix arRefreshFix
    { fenvOkFix with saveRefreshTokenData := Except.error "disk full" }
    rfl (Or.inr ⟨"disk full", rfl⟩)⟩

/-- C8: once the saves succeeded, the two cleanup deletions are
best-effort — the result neither depends on their outcomes nor can they
turn the success into a failure. -/
theorem cleanup_deletions_best_effort
    (s : Server) (ar : AccessRequest) (fenv : FinishEnv) (tok t : String)
    (hga : fenv.generateAccessToken = Except.ok tok)
    (hgr : ar.generateRefresh = true → fenv.generateRefreshToken = Except.ok t)
    (hsr : ar.generateRefresh = true → fenv.saveRefreshTokenData = Except.ok ())
    (hsa : fenv.saveAccessData = Except.ok ()) :
    ∀ d1 d2 : Except GoError Unit,
      (FinishAccessRequest s ar
        { fenv with deleteAuthorizeData := d1, deleteRefreshTokenData := d2 }).1 =
        (FinishAccessRequest s ar fenv).1 ∧
      ∃ resp, (FinishAccessRequest s ar fenv).1 = Except.ok resp := by
  intro d1 d2
  cases hgen : ar.generateRefresh with
  | false =>
    constructor
    · simp [FinishAccessRequest, hga, hsa, hgen]
    · simp [FinishAccessRequest, hga, hsa, hgen]
  | true =>
    have hgr2 := hgr hgen
    have hsr2 := hsr hgen
    constructor
    · simp [FinishAccessRequest, hga, hgr2, hsr2, hsa, hgen]
    · simp [FinishAccessRequest, hga, hgr2, hsr2, hsa, hgen]

/-- Witness: deletion outcomes (both failing) leave the concrete success
response untouched. -/
theorem cleanup_deletions_best_effort_witness :
    (FinishAccessRequest srvFix arRefreshFix
      { fenvOkFix with
        deleteAuthorizeData := Except.error "boom",
        deleteRefreshTokenData := Except.error "gone" }).1 =
      (FinishAccessRequest srvFix arRefreshFix fenvOkFix).1 ∧
    ∃ resp, (FinishAccessRequest srvFix arRefreshFix fenvOkFix).1 = Except.ok resp :=
  cleanup_deletions_best_effort srvFix arRefreshFix fenvOkFix
    "new-access-token" "new-refresh-token" rfl (fun _ => rfl) (fun _ => rfl) rfl
    (Except.error "boom") (Except.error "gone")

/-- C9: the refresh token is persisted before the access record; when the
access save then fails, the request errors with SERVER_ERROR and the trace
shows the save of the refresh token followed by the failed access save,
with no deletion of the just-saved refresh token attempted. -/
theorem access_save_failure_leaves_refresh
    (s : Server) (ar : AccessRequest) (fenv : FinishEnv) (tok rt : String) (e : GoError)
    (hgen : ar.generateRefresh = true)
    (hga : fenv.generateAccessToken = Except.ok tok)
    (hgr : fenv.generateRefreshToken = Except.ok rt)
    (hsr : fenv.saveRefreshTokenData = Except.ok ())
    (hsa : fenv.saveAccessData = Except.error e) :
    ∃ err rtd ad, FinishAccessRequest s ar fenv =
        (Except.error err,
         [StorageEvent.saveRefreshTokenData rtd, StorageEvent.saveAccessData ad])
      ∧ err.code = ErrorCode.E_SERVER_ERROR ∧ rtd.refreshToken = rt := by
  exact ⟨NewWrappedNisoError ErrorCode.E_SERVER_ERROR e "failed to save access data",
    { clientID := (ar.clientData.map ClientData.clientID).getD "", refreshToken := rt,
      createdAt := s.now, redirectURI := "", userData := ar.userData, scope := ar.scope },
    { clientData := ar.clientData, accessToken := tok, expiresIn := ar.expiration,
      scope := ar.scope, redirectURI := ar.redirectURI, createdAt := s.now,
      userData := ar.userData },
    by simp [FinishAccessRequest, hga, hgr, hsr, hsa, hgen], rfl, rfl⟩

/-- Witness: the orphaned-refresh-token scenario at concrete inputs. -/
theorem access_save_failure_leaves_refresh_witness :
    ∃ err rtd ad, FinishAccessRequest srvFix arRefreshFix
        { fenvOkFix with saveAccessData := Except.error "disk full" } =
        (Except.error err,
         [StorageEvent.saveRefreshTokenData rtd, StorageEvent.saveAccessData ad])
      ∧ err.code = ErrorCode.E_SERVER_ERROR ∧ rtd.refreshToken = "new-refresh-token" :=
  access_save_failure_leaves_refresh srvFix arRefreshFix
    { fenvOkFix with saveAccessData := Except.error "disk full" }
    "new-access-token" "new-refresh-token" "disk full" rfl rfl rfl rfl rfl


/-- C6: a successful client-credentials handler run yields
GenerateRefresh = false, and any success response finalized from it
carries no refresh_token entry. -/
theorem client_credentials_no_refresh
    (s : Server) (r : Request) (env : Env) (ar : AccessRequest)
    (h : handleClientCredentialsRequest s r env = Except.ok ar) :
    ar.generateRefresh = false ∧
    ∀ fenv resp, (FinishAccessRequest s ar fenv).1 = Except.ok resp →
      resp.data.all (fun p => p.1 ≠ "refresh_token") = true := by
  cases hca : env.clientAuth with
  | error e => simp [handleClientCredentialsRequest, hca] at h
  | ok a =>
    cases hcd : env.clientData with
    | error e => simp [handleClientCredentialsRequest, hca, hcd] at h
    | ok cd =>
      simp only [handleClientCredentialsRequest, hca, hcd, Except.ok.injEq] at h
      subst h
      refine ⟨rfl, ?_⟩
      intro fenv resp hok
      cases hga : fenv.generateAccessToken with
      | error e => simp [FinishAccessRequest, hga] at hok
      | ok tok =>
        cases hsa : fenv.saveAccessData with
        | error e => simp [FinishAccessRequest, hga, hsa] at hok
        | ok u =>
          simp only [FinishAccessRequest, hga, hsa] at hok
          by_cases hscope : formValue r "scope" = ""
          · simp [hscope, Response.set, setKey, NewResponse] at hok
            simp [← hok]
          · simp [hscope, Response.set, setKey, NewResponse] at hok
            simp [← hok]


/-- A client-credentials token request fixture. -/
def rCCFix : Request :=
  { method := "POST", form := [("grant_type", "client_credentials")] }

/-- The validated request the client-credentials handler produces for
`rCCFix` under the fixtures. -/
def arCCFix : AccessRequest :=
  { grantType := CLIENT_CREDENTIALS, scope := "", generateRefresh := false,
    expiration := 3600, httpRequest := rCCFix, clientData := some cdFix,
    redirectURI := "https://client.example/cb" }

/-- Witness: a concrete client-credentials run produces
GenerateRefresh = false. -/
theorem client_credentials_no_refresh_witness :
    handleClientCredentialsRequest srvFix rCCFix envRefreshFix = Except.ok arCCFix ∧
    arCCFix.generateRefresh = false :=
  ⟨rfl, (client_credentials_no_refresh srvFix rCCFix envRefreshFix arCCFix rfl).1⟩

/-- C7: once a request validates, the authorization callback outcome maps
exactly — a returned error gives SERVER_ERROR, (false, nil) gives
ACCESS_DENIED, (true, nil) proceeds to FinishAccessRequest. -/
theorem authorization_callback_mapping
    (s : Server) (r : Request) (env : Env) (fenv : FinishEnv)
    (cb : AccessRequest → Bool × Option GoError) (ar : AccessRequest)
    (hgen : GenerateAccessRequest s r env = Except.ok ar) :
    (∀ b ge, cb ar = (b, some ge) →
      ∃ e, (HandleAccessRequest s r env fenv cb).1 = Except.error e ∧
        e.code = ErrorCode.E_SERVER_ERROR)
    ∧ (cb ar = (false, none) →
      ∃ e, (HandleAccessRequest s r env fenv cb).1 = Except.error e ∧
        e.code = ErrorCode.E_ACCESS_DENIED)
    ∧ (cb ar = (true, none) →
      HandleAccessRequest s r env fenv cb = FinishAccessRequest s ar fenv) := by
  refine ⟨?_, ?_, ?_⟩
  · intro b ge hcb
    exact ⟨NewWrappedNisoError ErrorCode.E_SERVER_ERROR ge "authorization check failed",
      by simp [HandleAccessRequest, hgen, hcb], rfl⟩
  · intro hcb
    exact ⟨NewNisoError ErrorCode.E_ACCESS_DENIED "access denied",
      by simp [HandleAccessRequest, hgen, hcb], rfl⟩
  · intro hcb
    simp [HandleAccessRequest, hgen, hcb]

/-- Witness: with an approving callback the concrete pipeline result is
exactly the finalization result. -/
theorem authorization_callback_mapping_witness :
    HandleAccessRequest srvFix rCCFix envRefreshFix fenvOkFix (fun _ => (true, none)) =
      FinishAccessRequest srvFix arCCFix fenvOkFix :=
  (authorization_callback_mapping srvFix rCCFix envRefreshFix fenvOkFix
    (fun _ => (true, none)) arCCFix rfl).2.2 rfl


/-- A string that is not empty has positive length. -/
theorem string_length_pos {s : String} (h : s ≠ "") : 0 < s.length := by
  rcases Nat.eq_zero_or_pos s.length with h0 | hp
  · exact absurd (String.ext (List.length_eq_zero.mp h0)) h
  · exact hp

/-- C1: with a non-empty stored code challenge — a verifier failing the
RFC 7636 pattern gives INVALID_REQUEST; an unsupported challenge method
gives INVALID_REQUEST; under empty/plain the request fails with
INVALID_GRANT exactly on byte mismatch with the challenge; under S256 the
same with the SHA-256/base64url transform; and the RFC 7636 test vector
transforms to the expected challenge. -/
theorem pkce_verification_characterization
    (s : Server) (r : Request) (env : Env) (a : ClientAuth) (cd : ClientData)
    (ad : AuthorizeData)
    (hca : env.clientAuth = Except.ok a)
    (hcode : formValue r "code" ≠ "")
    (hcd : env.clientData = Except.ok cd)
    (had : env.getAuthorizeData = Except.ok ad)
    (hbind : ad.clientData.clientID = cd.clientID)
    (hexp : ad.IsExpiredAt s.now = false)
    (hch : ad.codeChallenge ≠ "") :
    (pkceMatches (formValue r "code_verifier") = false →
      handleAuthorizationCodeRequest s r env =
        Except.error (NewNisoError ErrorCode.E_INVALID_REQUEST
          "code_verifier invalid (rfc7636)"))
    ∧ (pkceMatches (formValue r "code_verifier") = true →
      ad.codeChallengeMethod ≠ "" → ad.codeChallengeMethod ≠ PKCE_PLAIN →
      ad.codeChallengeMethod ≠ PKCE_S256 →
      handleAuthorizationCodeRequest s r env =
        Except.error (NewNisoError ErrorCode.E_INVALID_REQUEST
          "code_challenge_method transform algorithm not supported (rfc7636)"))
    ∧ (pkceMatches (formValue r "code_verifier") = true →
      (ad.codeChallengeMethod = "" ∨ ad.codeChallengeMethod = PKCE_PLAIN) →
      ((∃ e, handleAuthorizationCodeRequest s r env = Except.error e ∧
          e.code = ErrorCode.E_INVALID_GRANT)
        ↔ formValue r "code_verifier" ≠ ad.codeChallenge))
    ∧ (pkceMatches (formValue r "code_verifier") = true →
      ad.codeChallengeMethod = PKCE_S256 →
      (((∃ e, handleAuthorizationCodeRequest s r env = Except.error e ∧
          e.code = ErrorCode.E_INVALID_GRANT)
        ↔ pkceS256Transform (formValue r "code_verifier") ≠ ad.codeChallenge)
      ∧ ((∃ ar, handleAuthorizationCodeRequest s r env = Except.ok ar)
        ↔ pkceS256Transform (formValue r "code_verifier") = ad.codeChallenge)))
    ∧ pkceS256Transform "dBjftJeZ4CVP-mB92K27uhbUJU1p1r_wW1gFWFOEjXk" =
        "E9Melhoa2OwvFrEMTJguCHaoeK1t8URWbuGJSstw-cM" := by
  have hlen : 0 < ad.codeChallenge.length := string_length_pos hch
  refine ⟨?_, ?_, ?_, ?_, by decide⟩
  · intro hm
    simp [handleAuthorizationCodeRequest, hca, hcd, had, hcode, hbind, hexp, hlen, hm]
  · intro hm h1 h2 h3
    simp [handleAuthorizationCodeRequest, hca, hcd, had, hcode, hbind, hexp, hlen, hm,
      h1, h2, h3]
  · intro hm hmeth
    by_cases hv : formValue r "code_verifier" = ad.codeChallenge
    · rw [hv] at hm
      rcases hmeth with h1 | h1 <;>
        simp [handleAuthorizationCodeRequest, hca, hcd, had, hcode, hbind, hexp, hlen,
          hm, h1, hv]
    · rcases hmeth with h1 | h1 <;>
        simp [handleAuthorizationCodeRequest, hca, hcd, had, hcode, hbind, hexp, hlen,
          hm, h1, hv, NewNisoError]
  · intro hm hmeth
    by_cases hv : pkceS256Transform (formValue r "code_verifier") = ad.codeChallenge
    · constructor <;>
        simp [handleAuthorizationCodeRequest, hca, hcd, had, hcode, hbind, hexp, hlen,
          hm, hmeth, hv, PKCE_S256, PKCE_PLAIN]
    · constructor <;>
        simp [handleAuthorizationCodeRequest, hca, hcd, had, hcode, hbind, hexp, hlen,
          hm, hmeth, hv, PKCE_S256, PKCE_PLAIN, NewNisoError]

/-- C10: with an empty stored code challenge the verifier is never
inspected — any verifier value, pattern-violating included, leaves the
request successful once the code, binding, and expiry checks pass. -/
theorem empty_challenge_skips_pkce
    (s : Server) (r : Request) (env : Env) (a : ClientAuth) (cd : ClientData)
    (ad : AuthorizeData)
    (hca : env.clientAuth = Except.ok a)
    (hcode : formValue r "code" ≠ "")
    (hcd : env.clientData = Except.ok cd)
    (had : env.getAuthorizeData = Except.ok ad)
    (hbind : ad.clientData.clientID = cd.clientID)
    (hexp : ad.IsExpiredAt s.now = false)
    (hch : ad.codeChallenge = "") :
    ∃ ar, handleAuthorizationCodeRequest s r env = Except.ok ar ∧
      ar.codeVerifier = formValue r "code_verifier" := by
  refine
    ⟨{ grantType := AUTHORIZATION_CODE,
       code := formValue r "code",
       codeVerifier := formValue r "code_verifier",
       generateRefresh := true,
       expiration := s.config.accessExpiration,
       httpRequest := r,
       clientData := some cd,
       authorizeData := some ad,
       scope := ad.scope,
       userData := ad.userData }, ?_, rfl⟩
  simp [handleAuthorizationCodeRequest, hca, hcd, had, hcode, hbind, hexp, hch]


/-- An authorization-code fixture carrying the RFC 7636 S256 challenge. -/
def adS256Fix : AuthorizeData :=
  { clientData := cdFix, code := "authcode-1", expiresIn := 3600, scope := "sc",
    redirectURI := "https://client.example/cb", createdAt := 0, userData := "ud",
    codeChallenge := "E9Melhoa2OwvFrEMTJguCHaoeK1t8URWbuGJSstw-cM",
    codeChallengeMethod := "S256" }

/-- Oracle fixture resolving `authcode-1` to the S256-protected code. -/
def envAuthFix : Env :=
  { clientAuth := Except.ok authFix, clientData := Except.ok cdFix,
    getAuthorizeData := Except.ok adS256Fix,
    getRefreshTokenData := Except.error "no refresh token" }

/-- A code-exchange request carrying the RFC 7636 test-vector verifier. -/
def rAuthFix : Request :=
  { method := "POST",
    form := [("grant_type", "authorization_code"), ("code", "authcode-1"),
             ("code_verifier", "dBjftJeZ4CVP-mB92K27uhbUJU1p1r_wW1gFWFOEjXk")] }

/-- Witness: the RFC 7636 test vector is accepted against the stored S256
challenge. -/
theorem pkce_verification_characterization_witness :
    pkceMatches (formValue rAuthFix "code_verifier") = true ∧
    (∃ ar, handleAuthorizationCodeRequest srvFix rAuthFix envAuthFix = Except.ok ar) :=
  ⟨by decide,
    (((pkce_verification_characterization srvFix rAuthFix envAuthFix authFix cdFix adS256Fix
        rfl (by decide) rfl rfl rfl (by decide) (by decide)).2.2.2.1
      (by decide) rfl).2).mpr (by decide)⟩

/-- The same authorization code with no PKCE challenge stored. -/
def adNoChallengeFix : AuthorizeData :=
  { adS256Fix with codeChallenge := "", codeChallengeMethod := "" }

/-- Oracle fixture resolving to the challenge-free code. -/
def envNoPkceFix : Env :=
  { envAuthFix with getAuthorizeData := Except.ok adNoChallengeFix }

/-- A code exchange supplying a pattern-violating verifier "!". -/
def rNoPkceFix : Request :=
  { method := "POST",
    form := [("grant_type", "authorization_code"), ("code", "authcode-1"),
             ("code_verifier", "!")] }

/-- Witness: with an empty stored challenge even the verifier "!" (which
violates the RFC 7636 pattern) leaves the exchange successful. -/
theorem empty_challenge_skips_pkce_witness :
    formValue rNoPkceFix "code_verifier" = "!" ∧
    (∃ ar, handleAuthorizationCodeRequest srvFix rNoPkceFix envNoPkceFix = Except.ok ar ∧
      ar.codeVerifier = formValue rNoPkceFix "code_verifier") :=
  ⟨by decide, empty_challenge_skips_pkce srvFix rNoPkceFix envNoPkceFix authFix cdFix
    adNoChallengeFix rfl (by decide) rfl rfl rfl (by decide) rfl⟩


end Niso
